import Mathlib

/-!
Shallow embedding of `custom_components/webhook_conversation/tts.py`:
the webhook-backed text-to-speech entity.  Python dictionaries carrying
string keys and string values are modelled as association lists (first
match wins, as in the insertion-ordered dicts the code builds), bytes as
`List Nat`, exceptions as `Except String`, and the asynchronous HTTP
round trip as a function from the sent payload to an `HttpResponse`
record.  The aiohttp session, the authentication headers and the timeout
are abstracted into that function: the claims under verification do not
observe them.
-/

/-- The `ATTR_VOICE` option key imported from `homeassistant.components.tts`. -/
def ATTR_VOICE : String := "voice"

/-- A `Voice` as in `homeassistant.components.tts`: an identifier and a display name. -/
structure Voice where
  voice_id : String
  name : String
deriving DecidableEq

/-- The JSON payload sent to the webhook, `WebhookTTSRequestPayload`,
modelled as an insertion-ordered association list of string fields. -/
abbrev WebhookTTSRequestPayload : Type := List (String × String)

/-- Dictionary lookup on an association list: the first binding of the key. -/
def lookupKey (p : List (String × String)) (k : String) : Option String :=
  (p.find? (fun kv => kv.1 = k)).map (fun kv => kv.2)

/-- The HTTP response of the webhook as observed by `async_get_tts_audio`:
status, reason phrase, optional `Content-Type` header and body bytes. -/
structure HttpResponse where
  status : Nat
  reason : String
  contentType : Option String
  body : List Nat
deriving DecidableEq

/-- Configuration subentry data read by `__init__`: the
`CONF_SUPPORTED_LANGUAGES` entry (`none` models a missing key, since the
code indexes `subentry.data[CONF_SUPPORTED_LANGUAGES]`), the optional
`CONF_VOICES` entry, and the subentry title. -/
structure ConfigSubentryData where
  supported_languages : Option (List String)
  voices : Option (List String)
  title : String

/-- The attributes `__init__` stores on `WebhookConversationTextToSpeechEntity`. -/
structure Entity where
  attr_name : String
  supported_languages : List String
  default_language : String
  supported_options : Option (List String)
  voices : Option (List Voice)
deriving DecidableEq

/-- Name resolution of `__init__` lines 59-63:
`(self.device_info.get("name") or subentry.title) if self.device_info else subentry.title`.
The outer `Option` models whether `device_info` is truthy, the inner one the
`"name"` value it holds; Python `or` falls through on a falsy (empty) name. -/
def resolveName (device_info : Option (Option String)) (title : String) : String :=
  match device_info with
  | none => title
  | some name_entry =>
    match name_entry with
    | none => title
    | some n => if n = "" then title else n

/-- Construction, `WebhookConversationTextToSpeechEntity.__init__`.
A missing `CONF_SUPPORTED_LANGUAGES` key raises `KeyError` and an empty
language list makes `supported_languages[0]` raise `IndexError`; both
propagate to the host, modelled as `Except.error`.  The walrus
`if voices := subentry.data.get(CONF_VOICES)` is truthy only on a
non-empty list; only then are `_attr_supported_options` and `_voices`
set, the latter to `[Voice(voice, voice) for voice in voices]`. -/
def entityInit (device_info : Option (Option String)) (subentry : ConfigSubentryData) :
    Except String Entity :=
  match subentry.supported_languages with
  | none => Except.error "KeyError: supported_languages"
  | some supported_languages =>
    match supported_languages with
    | [] => Except.error "IndexError: list index out of range"
    | l :: _ =>
      let base : Entity :=
        { attr_name := resolveName device_info subentry.title
          supported_languages := supported_languages
          default_language := l
          supported_options := none
          voices := none }
      match subentry.voices with
      | none => Except.ok base
      | some vs =>
        if vs = [] then Except.ok base
        else Except.ok { base with
          supported_options := some [ATTR_VOICE]
          voices := some (vs.map (fun voice => Voice.mk voice voice)) }

/-- The accessor `async_get_supported_voices`: returns `self._voices`,
ignoring the language argument. -/
def async_get_supported_voices (e : Entity) (_language : String) : Option (List Voice) :=
  e.voices

/-- The cached property `default_options`: `None` when `self._voices` is
falsy, otherwise `{ATTR_VOICE: self._voices[0]}`. -/
def default_options (e : Entity) : Option (List (String × Voice)) :=
  match e.voices with
  | none => none
  | some [] => none
  | some (v :: _) => some [(ATTR_VOICE, v)]

/-- Payload assembly, `async_get_tts_audio` lines 97-103: the dict
`{"text": message, "language": language}`, then `payload["voice"] = voice`
when `voice := options.get(ATTR_VOICE)` is truthy (a non-empty string). -/
def buildPayload (message language : String) (options : List (String × String)) :
    WebhookTTSRequestPayload :=
  let payload : List (String × String) := [("text", message), ("language", language)]
  match lookupKey options ATTR_VOICE with
  | none => payload
  | some voice => if voice = "" then payload else payload ++ [(ATTR_VOICE, voice)]

/-- String rendering of the optional `Content-Type` header inside the
f-string of the error message; Python prints a missing header as `None`. -/
def ctRepr : Option String → String
  | none => "None"
  | some s => s

/-- The guard `if not content_type or "/" not in content_type` of line 120:
true when the header is absent, empty, or has no `/` character. -/
def contentTypeInvalid : Option String → Bool
  | none => true
  | some s => s.data.isEmpty || !(s.data.contains '/')

/-- Python `str.split(sep)` for a one-character separator, on the character
list of the string: `"a/b".split("/") = ["a", "b"]`, `"".split("/") = [""]`,
`"a/".split("/") = ["a", ""]`. -/
def splitChar (sep : Char) : List Char → List (List Char)
  | [] => [[]]
  | c :: cs =>
    match splitChar sep cs with
    | [] => if c = sep then [[], []] else [[c]]
    | r :: rs => if c = sep then [] :: r :: rs else (c :: r) :: rs

/-- The expression `content_type.split("/")[-1]` of line 124: the part of
the header after its last `/`. -/
def lastSplitPart (s : String) : String :=
  String.mk ((splitChar '/' s.data).getLastD [])

/-- Response validation, `async_get_tts_audio` lines 112-130: reject a
non-200 status with the status and reason in the message, reject an
absent, empty or slash-free `Content-Type`, take the audio format as
`content_type.split("/")[-1]`, reject a format other than `wav` or `mp3`,
and otherwise return the format with the full body bytes. -/
def handleWebhookResponse (response : HttpResponse) : Except String (String × List Nat) :=
  if response.status ≠ 200 then
    Except.error ("Error contacting TTS webhook: HTTP " ++ toString response.status
      ++ " - " ++ response.reason)
  else
    let response_bytes := response.body
    let content_type := response.contentType
    if contentTypeInvalid content_type then
      Except.error ("Invalid Content-Type in TTS webhook response: " ++ ctRepr content_type)
    else
      let audio_format := lastSplitPart (ctRepr content_type)
      if audio_format ∈ ["wav", "mp3"] then
        Except.ok (audio_format, response_bytes)
      else
        Except.error ("Unsupported audio format in TTS webhook response: " ++ audio_format)

/-- The synthesize call `async_get_tts_audio`: build the payload from
message, language and options, pass it through the injected
`_apply_custom_request_fields` hook, POST the hook result (the network
round trip is abstracted as `post`), and validate the response. -/
def async_get_tts_audio (message language : String) (options : List (String × String))
    (hook : WebhookTTSRequestPayload → WebhookTTSRequestPayload)
    (post : WebhookTTSRequestPayload → HttpResponse) : Except String (String × List Nat) :=
  let payload := buildPayload message language options
  let payload := hook payload
  handleWebhookResponse (post payload)

/-- The subtype reading used by the specification text, which defines the
subtype of the Content-Type as "the part after the `/` separator": the
portion of the header following its first `/` character. -/
def specSubtype (ct : String) : String :=
  String.mk ((ct.data.dropWhile (fun c => c ≠ '/')).drop 1)

/-- A character list that contains a character is not empty. -/
lemma isEmpty_eq_false_of_contains {l : List Char} {c : Char} (h : l.contains c = true) :
    l.isEmpty = false := by
  cases l with
  | nil => simp [List.contains] at h
  | cons a as => rfl

/-- Claim C1: the JSON payload sent to the webhook always contains the keys
`text` (the message) and `language`; it contains `voice` exactly when the
caller-supplied options hold a truthy (non-empty) voice value; the payload is
assembled first and then passed through the custom-fields hook, whose return
value is used unchanged as the sent payload, so a hook that deletes the
`voice` key yields a sent payload without it. -/
theorem C1_payload_assembly_and_hook (message language : String)
    (options : List (String × String))
    (hook : WebhookTTSRequestPayload → WebhookTTSRequestPayload)
    (post : WebhookTTSRequestPayload → HttpResponse) :
    lookupKey (buildPayload message language options) "text" = some message ∧
    lookupKey (buildPayload message language options) "language" = some language ∧
    ((∃ v, lookupKey (buildPayload message language options) ATTR_VOICE = some v) ↔
      (∃ v, lookupKey options ATTR_VOICE = some v ∧ v ≠ "")) ∧
    async_get_tts_audio message language options hook post =
      handleWebhookResponse (post (hook (buildPayload message language options))) ∧
    ((∀ p, lookupKey (hook p) ATTR_VOICE = none) →
      lookupKey (hook (buildPayload message language options)) ATTR_VOICE = none) := by
  refine ⟨?_, ?_, ?_, rfl, fun h => h _⟩
  · unfold buildPayload
    rcases lookupKey options ATTR_VOICE with _ | v
    · rfl
    · by_cases hv : v = "" <;> simp [hv, lookupKey, List.find?]
  · unfold buildPayload
    rcases hopt : lookupKey options ATTR_VOICE with _ | v
    · simp [lookupKey, List.find?, ATTR_VOICE]
    · by_cases hv : v = "" <;> simp [hv, lookupKey, List.find?, ATTR_VOICE]
  · unfold buildPayload
    rcases hopt : lookupKey options ATTR_VOICE with _ | v
    · simp [hopt, lookupKey, List.find?, ATTR_VOICE]
    · by_cases hv : v = "" <;> simp [hopt, hv, lookupKey, List.find?, ATTR_VOICE]

/-- Claim C1 witness at concrete inputs, with a hook that deletes every
field (in particular the `voice` key). -/
theorem C1_witness :
    lookupKey (buildPayload "hello" "en" [("voice", "v1")]) "text" = some "hello" ∧
    lookupKey (buildPayload "hello" "en" [("voice", "v1")]) "language" = some "en" ∧
    ((∃ v, lookupKey (buildPayload "hello" "en" [("voice", "v1")]) ATTR_VOICE = some v) ↔
      (∃ v, lookupKey [("voice", "v1")] ATTR_VOICE = some v ∧ v ≠ "")) ∧
    async_get_tts_audio "hello" "en" [("voice", "v1")]
        (fun _ => ([] : WebhookTTSRequestPayload))
        (fun _ => ⟨200, "OK", some "audio/mp3", [65, 66, 67]⟩) =
      handleWebhookResponse ⟨200, "OK", some "audio/mp3", [65, 66, 67]⟩ ∧
    lookupKey ((fun _ => ([] : WebhookTTSRequestPayload))
        (buildPayload "hello" "en" [("voice", "v1")])) ATTR_VOICE = none := by
  have h := C1_payload_assembly_and_hook "hello" "en" [("voice", "v1")]
    (fun _ => ([] : WebhookTTSRequestPayload))
    (fun _ => ⟨200, "OK", some "audio/mp3", [65, 66, 67]⟩)
  exact ⟨h.1, h.2.1, h.2.2.1, h.2.2.2.1, h.2.2.2.2 (fun p => rfl)⟩

/-- Claim C2: when the webhook responds with status 200 and a Content-Type
whose validated subtype is `wav` or `mp3`, synthesize returns that subtype
paired with the complete, unmodified response body bytes. -/
theorem C2_success_returns_format_and_body (message language : String)
    (options : List (String × String))
    (hook : WebhookTTSRequestPayload → WebhookTTSRequestPayload)
    (post : WebhookTTSRequestPayload → HttpResponse) (ct fmt : String)
    (hstatus : (post (hook (buildPayload message language options))).status = 200)
    (hct : (post (hook (buildPayload message language options))).contentType = some ct)
    (hslash : ct.data.contains '/' = true)
    (hfmt : lastSplitPart ct = fmt)
    (hok : fmt = "wav" ∨ fmt = "mp3") :
    async_get_tts_audio message language options hook post =
      Except.ok (fmt, (post (hook (buildPayload message language options))).body) := by
  have hempty : ct.data.isEmpty = false := isEmpty_eq_false_of_contains hslash
  simp [async_get_tts_audio, handleWebhookResponse, hstatus, hct, contentTypeInvalid,
    hempty, hslash, ctRepr, hfmt]
  have hmem : '/' ∈ ct.data := by simpa using hslash
  rcases hok with h | h <;> simp [h, hmem]

/-- Claim C2 witness: status 200 with `Content-Type: audio/mp3` and body
`b"ABC"` (bytes 65, 66, 67) yields `("mp3", b"ABC")`. -/
theorem C2_witness :
    async_get_tts_audio "hello" "en" [] (fun p => p)
      (fun _ => ⟨200, "OK", some "audio/mp3", [65, 66, 67]⟩) =
      Except.ok ("mp3", [65, 66, 67]) :=
  C2_success_returns_format_and_body "hello" "en" [] (fun p => p)
    (fun _ => ⟨200, "OK", some "audio/mp3", [65, 66, 67]⟩) "audio/mp3" "mp3"
    rfl rfl (by decide) (by decide) (Or.inr rfl)

/-- Claim C3 as stated is refuted by this response: its Content-Type
`text/plain/mp3` contains a `/` and its subtype in the sense of the claim
(the part after the `/` separator) is `plain/mp3`, which is neither `wav`
nor `mp3`, so the claim requires the call to fail; the code instead takes
the part after the last `/` and succeeds with format `mp3`. -/
theorem C3_counterexample :
    specSubtype "text/plain/mp3" = "plain/mp3" ∧
    specSubtype "text/plain/mp3" ∉ (["wav", "mp3"] : List String) ∧
    async_get_tts_audio "hello" "en" [] (fun p => p)
      (fun _ => ⟨200, "OK", some "text/plain/mp3", [7]⟩) = Except.ok ("mp3", [7]) := by
  refine ⟨by decide, by decide, rfl⟩

/-- Claim C3 as amended: with status 200 and a Content-Type containing a
`/`, the audio format is the part of the header after its last `/`; when
that format is not exactly `wav` or `mp3`, synthesize fails with an error
naming the unsupported format. -/
theorem C3_amended_unsupported_format (message language : String)
    (options : List (String × String))
    (hook : WebhookTTSRequestPayload → WebhookTTSRequestPayload)
    (post : WebhookTTSRequestPayload → HttpResponse) (ct : String)
    (hstatus : (post (hook (buildPayload message language options))).status = 200)
    (hct : (post (hook (buildPayload message language options))).contentType = some ct)
    (hslash : ct.data.contains '/' = true)
    (hbad : lastSplitPart ct ∉ (["wav", "mp3"] : List String)) :
    ∃ msg, async_get_tts_audio message language options hook post = Except.error msg ∧
      (lastSplitPart ct).data <:+: msg.data := by
  refine ⟨"Unsupported audio format in TTS webhook response: " ++ lastSplitPart ct, ?_, ?_⟩
  · have hempty : ct.data.isEmpty = false := isEmpty_eq_false_of_contains hslash
    have hmem : '/' ∈ ct.data := by simpa using hslash
    simp [async_get_tts_audio, handleWebhookResponse, hstatus, hct, contentTypeInvalid,
      hempty, hslash, hmem, ctRepr, hbad]
  · exact ⟨("Unsupported audio format in TTS webhook response: ").data, [],
      by simp [String.data_append]⟩

/-- Claim C3 amended witness: `Content-Type: text/plain` fails and the
error message carries the unsupported format `plain`. -/
theorem C3_amended_witness :
    ∃ msg, async_get_tts_audio "hello" "en" [] (fun p => p)
        (fun _ => ⟨200, "OK", some "text/plain", []⟩) = Except.error msg ∧
      (lastSplitPart "text/plain").data <:+: msg.data :=
  C3_amended_unsupported_format "hello" "en" [] (fun p => p)
    (fun _ => ⟨200, "OK", some "text/plain", []⟩) "text/plain" rfl rfl (by decide) (by decide)

/-- Claim C4: on any HTTP status other than 200, synthesize fails with an
error whose message carries the status code and the reason phrase, and no
audio result is returned. -/
theorem C4_non200_fails_with_status (message language : String)
    (options : List (String × String))
    (hook : WebhookTTSRequestPayload → WebhookTTSRequestPayload)
    (post : WebhookTTSRequestPayload → HttpResponse) (resp : HttpResponse)
    (hresp : post (hook (buildPayload message language options)) = resp)
    (hstatus : resp.status ≠ 200) :
    ∃ msg, async_get_tts_audio message language options hook post = Except.error msg ∧
      (toString resp.status).data <:+: msg.data ∧
      resp.reason.data <:+: msg.data ∧
      ∀ result, async_get_tts_audio message language options hook post ≠ Except.ok result := by
  have hrun : async_get_tts_audio message language options hook post =
      Except.error ("Error contacting TTS webhook: HTTP " ++ toString resp.status
        ++ " - " ++ resp.reason) := by
    simp [async_get_tts_audio, handleWebhookResponse, hresp, hstatus]
  refine ⟨_, hrun, ?_, ?_, ?_⟩
  · exact ⟨("Error contacting TTS webhook: HTTP ").data, (" - " ++ resp.reason).data,
      by simp [String.data_append]⟩
  · exact ⟨("Error contacting TTS webhook: HTTP " ++ toString resp.status ++ " - ").data, [],
      by simp [String.data_append]⟩
  · intro result h
    rw [hrun] at h
    exact Except.noConfusion h

/-- Claim C4 witness: a 404 response fails with a message containing "404". -/
theorem C4_witness :
    ∃ msg, async_get_tts_audio "hello" "en" [] (fun p => p)
        (fun _ => ⟨404, "Not Found", none, []⟩) = Except.error msg ∧
      (toString (404 : Nat)).data <:+: msg.data ∧
      ("Not Found").data <:+: msg.data ∧
      ∀ result, async_get_tts_audio "hello" "en" [] (fun p => p)
        (fun _ => ⟨404, "Not Found", none, []⟩) ≠ Except.ok result :=
  C4_non200_fails_with_status "hello" "en" [] (fun p => p)
    (fun _ => ⟨404, "Not Found", none, []⟩) ⟨404, "Not Found", none, []⟩ rfl (by decide)

/-- Claim C5: with status 200 but a Content-Type that is missing, empty or
has no `/` separator, synthesize fails with an error carrying the raw
header value, and no audio result is returned. -/
theorem C5_invalid_content_type_fails (message language : String)
    (options : List (String × String))
    (hook : WebhookTTSRequestPayload → WebhookTTSRequestPayload)
    (post : WebhookTTSRequestPayload → HttpResponse) (resp : HttpResponse)
    (hresp : post (hook (buildPayload message language options)) = resp)
    (hstatus : resp.status = 200)
    (hbad : contentTypeInvalid resp.contentType = true) :
    async_get_tts_audio message language options hook post =
      Except.error ("Invalid Content-Type in TTS webhook response: "
        ++ ctRepr resp.contentType) ∧
    (∀ ct, resp.contentType = some ct →
      ct.data <:+: ("Invalid Content-Type in TTS webhook response: "
        ++ ctRepr resp.contentType).data) ∧
    ∀ result, async_get_tts_audio message language options hook post ≠ Except.ok result := by
  have hrun : async_get_tts_audio message language options hook post =
      Except.error ("Invalid Content-Type in TTS webhook response: "
        ++ ctRepr resp.contentType) := by
    simp [async_get_tts_audio, handleWebhookResponse, hresp, hstatus, hbad]
  refine ⟨hrun, ?_, ?_⟩
  · intro ct hct
    exact ⟨("Invalid Content-Type in TTS webhook response: ").data, [],
      by simp [String.data_append, hct, ctRepr]⟩
  · intro result h
    rw [hrun] at h
    exact Except.noConfusion h

/-- Claim C5 witness: status 200 with no Content-Type header fails citing
an invalid Content-Type, and no audio result is returned. -/
theorem C5_witness :
    async_get_tts_audio "hello" "en" [] (fun p => p)
      (fun _ => ⟨200, "OK", none, []⟩) =
      Except.error ("Invalid Content-Type in TTS webhook response: " ++ ctRepr none) ∧
    (∀ ct, (none : Option String) = some ct →
      ct.data <:+: ("Invalid Content-Type in TTS webhook response: " ++ ctRepr none).data) ∧
    ∀ result, async_get_tts_audio "hello" "en" [] (fun p => p)
      (fun _ => ⟨200, "OK", none, []⟩) ≠ Except.ok result :=
  C5_invalid_content_type_fails "hello" "en" [] (fun p => p)
    (fun _ => ⟨200, "OK", none, []⟩) ⟨200, "OK", none, []⟩ rfl rfl (by decide)

/-- Characterization of construction on a present, non-empty language list:
the resulting entity field by field, with the voice fields determined by
the truthiness of the configured voice list. -/
lemma entityInit_eq (device_info : Option (Option String)) (subentry : ConfigSubentryData)
    (l : String) (ls : List String)
    (hlangs : subentry.supported_languages = some (l :: ls)) :
    entityInit device_info subentry = Except.ok
      { attr_name := resolveName device_info subentry.title
        supported_languages := l :: ls
        default_language := l
        supported_options :=
          match subentry.voices with
          | none => none
          | some vs => if vs = [] then none else some [ATTR_VOICE]
        voices :=
          match subentry.voices with
          | none => none
          | some vs =>
            if vs = [] then none
            else some (vs.map (fun voice => Voice.mk voice voice)) } := by
  rcases hv : subentry.voices with _ | vs
  · simp [entityInit, hlangs, hv]
  · by_cases hvs : vs = [] <;> simp [entityInit, hlangs, hv, hvs]

/-- Construction on a language list that is absent or empty yields an error. -/
lemma entityInit_langs_of_ok (device_info : Option (Option String))
    (subentry : ConfigSubentryData) (e : Entity)
    (h : entityInit device_info subentry = Except.ok e) :
    ∃ l ls, subentry.supported_languages = some (l :: ls) := by
  rcases hl : subentry.supported_languages with _ | langs
  · simp [entityInit, hl] at h
  · rcases langs with _ | ⟨l, ls⟩
    · simp [entityInit, hl] at h
    · exact ⟨l, ls, rfl⟩

/-- Claim C6: for every non-empty configured supported-languages list,
construction succeeds and the entity's default language is the first
element of that list while its supported-languages attribute equals the
configured list. -/
theorem C6_default_language_is_first (device_info : Option (Option String))
    (subentry : ConfigSubentryData) (l : String) (ls : List String)
    (hlangs : subentry.supported_languages = some (l :: ls)) :
    ∃ e, entityInit device_info subentry = Except.ok e ∧
      e.supported_languages = l :: ls ∧ e.default_language = l :=
  ⟨_, entityInit_eq device_info subentry l ls hlangs, rfl, rfl⟩

/-- Claim C6 witness: languages `["en", "fr"]` give default language `"en"`. -/
theorem C6_witness :
    ∃ e, entityInit none ⟨some ["en", "fr"], none, "webhook"⟩ = Except.ok e ∧
      e.supported_languages = ["en", "fr"] ∧ e.default_language = "en" :=
  C6_default_language_is_first none ⟨some ["en", "fr"], none, "webhook"⟩ "en" ["fr"] rfl

/-- Claim C7: `async_get_supported_voices` ignores its language argument and
returns the statically configured voices, each as an (id, id) pair, or
nothing when no non-empty voice list is configured. -/
theorem C7_supported_voices_ignore_language (device_info : Option (Option String))
    (subentry : ConfigSubentryData) (e : Entity) (language1 language2 : String)
    (h : entityInit device_info subentry = Except.ok e) :
    async_get_supported_voices e language1 = async_get_supported_voices e language2 ∧
    ((subentry.voices = none ∨ subentry.voices = some []) →
      async_get_supported_voices e language1 = none) ∧
    (∀ v vs, subentry.voices = some (v :: vs) →
      async_get_supported_voices e language1 =
        some ((v :: vs).map (fun voice => Voice.mk voice voice))) := by
  obtain ⟨l, ls, hlangs⟩ := entityInit_langs_of_ok device_info subentry e h
  have he := entityInit_eq device_info subentry l ls hlangs
  rw [h] at he
  injection he with he
  subst he
  refine ⟨rfl, ?_, ?_⟩
  · rintro (hv | hv) <;> simp [async_get_supported_voices, hv]
  · intro v vs hv
    simp [async_get_supported_voices, hv]

/-- Claim C7 witness: voices `["a", "b"]` yield exactly the pairs
`("a", "a")` and `("b", "b")`, and the same answer for language `"en"`
and `"fr"`. -/
theorem C7_witness :
    async_get_supported_voices
        ⟨"webhook", ["en"], "en", some [ATTR_VOICE],
          some [Voice.mk "a" "a", Voice.mk "b" "b"]⟩ "en" =
      async_get_supported_voices
        ⟨"webhook", ["en"], "en", some [ATTR_VOICE],
          some [Voice.mk "a" "a", Voice.mk "b" "b"]⟩ "fr" ∧
    async_get_supported_voices
        ⟨"webhook", ["en"], "en", some [ATTR_VOICE],
          some [Voice.mk "a" "a", Voice.mk "b" "b"]⟩ "en" =
      some (["a", "b"].map (fun voice => Voice.mk voice voice)) := by
  have h := C7_supported_voices_ignore_language none
    ⟨some ["en"], some ["a", "b"], "webhook"⟩
    ⟨"webhook", ["en"], "en", some [ATTR_VOICE],
      some [Voice.mk "a" "a", Voice.mk "b" "b"]⟩ "en" "fr" rfl
  exact ⟨h.1, h.2.2 "a" ["b"] rfl⟩

/-- Claim C8: `default_options` returns nothing when no (non-empty) voice
list is configured, and otherwise a mapping selecting the first configured
voice. -/
theorem C8_default_options_first_voice (device_info : Option (Option String))
    (subentry : ConfigSubentryData) (e : Entity)
    (h : entityInit device_info subentry = Except.ok e) :
    ((subentry.voices = none ∨ subentry.voices = some []) →
      default_options e = none) ∧
    (∀ v vs, subentry.voices = some (v :: vs) →
      default_options e = some [(ATTR_VOICE, Voice.mk v v)]) := by
  obtain ⟨l, ls, hlangs⟩ := entityInit_langs_of_ok device_info subentry e h
  have he := entityInit_eq device_info subentry l ls hlangs
  rw [h] at he
  injection he with he
  subst he
  refine ⟨?_, ?_⟩
  · rintro (hv | hv) <;> simp [default_options, hv]
  · intro v vs hv
    simp [default_options, hv]

/-- Claim C8 witness: with no voices configured `default_options` is
nothing; with voices `["x"]` it selects the voice `("x", "x")`. -/
theorem C8_witness :
    default_options ⟨"webhook", ["en"], "en", none, none⟩ = none ∧
    default_options ⟨"webhook", ["en"], "en", some [ATTR_VOICE],
        some [Voice.mk "x" "x"]⟩ = some [(ATTR_VOICE, Voice.mk "x" "x")] := by
  have h1 := C8_default_options_first_voice none ⟨some ["en"], none, "webhook"⟩
    ⟨"webhook", ["en"], "en", none, none⟩ rfl
  have h2 := C8_default_options_first_voice none ⟨some ["en"], some ["x"], "webhook"⟩
    ⟨"webhook", ["en"], "en", some [ATTR_VOICE], some [Voice.mk "x" "x"]⟩ rfl
  exact ⟨h1.1 (Or.inl rfl), h2.2 "x" [] rfl⟩

/-- Claim C9: construction fails (the error propagates as a setup-time
configuration error, modelled by `Except.error`) exactly when the
supported-languages entry is absent or the configured list is empty, and
succeeds on every non-empty language list. -/
theorem C9_construction_failure_iff (device_info : Option (Option String))
    (subentry : ConfigSubentryData) :
    ((∃ msg, entityInit device_info subentry = Except.error msg) ↔
      (subentry.supported_languages = none ∨ subentry.supported_languages = some [])) ∧
    ((∃ e, entityInit device_info subentry = Except.ok e) ↔
      (∃ l ls, subentry.supported_languages = some (l :: ls))) := by
  rcases hl : subentry.supported_languages with _ | langs
  · constructor <;> simp [entityInit, hl]
  · rcases langs with _ | ⟨l, ls⟩
    · constructor <;> simp [entityInit, hl]
    · have he := entityInit_eq device_info subentry l ls hl
      constructor
      · simp [he, hl]
      · exact ⟨fun _ => ⟨l, ls, rfl⟩, fun _ => ⟨_, he⟩⟩

/-- Claim C9 witness: a missing language entry and an empty language list
both fail construction; the list `["en"]` constructs successfully. -/
theorem C9_witness :
    (∃ msg, entityInit none ⟨none, none, "webhook"⟩ = Except.error msg) ∧
    (∃ msg, entityInit none ⟨some [], none, "webhook"⟩ = Except.error msg) ∧
    (∃ e, entityInit none ⟨some ["en"], none, "webhook"⟩ = Except.ok e) :=
  ⟨(C9_construction_failure_iff none ⟨none, none, "webhook"⟩).1.mpr (Or.inl rfl),
   (C9_construction_failure_iff none ⟨some [], none, "webhook"⟩).1.mpr (Or.inr rfl),
   (C9_construction_failure_iff none ⟨some ["en"], none, "webhook"⟩).2.mpr ⟨"en", [], rfl⟩⟩

/-- Claim C10: on every successfully constructed entity (an immutable value
in this embedding, so every operation trivially preserves it), the stored
voice list is absent or non-empty with each voice's identifier equal to its
display label; the voice-selection option is exposed exactly when a
non-empty voice list was configured; an empty configured voice list behaves
as no voice list; and the accessor reads the stored configuration without
changing it. -/
theorem C10_voice_invariant (device_info : Option (Option String))
    (subentry : ConfigSubentryData) (e : Entity)
    (h : entityInit device_info subentry = Except.ok e) :
    (e.voices = none ∨ ∃ v vs, e.voices = some (v :: vs) ∧
      ∀ w ∈ v :: vs, w.voice_id = w.name) ∧
    (e.supported_options = some [ATTR_VOICE] ↔
      ∃ v vs, subentry.voices = some (v :: vs)) ∧
    (e.voices ≠ none ↔ ∃ v vs, subentry.voices = some (v :: vs)) ∧
    ((subentry.voices = none ∨ subentry.voices = some []) →
      e.voices = none ∧ e.supported_options = none) ∧
    (∀ language, async_get_supported_voices e language = e.voices) := by
  obtain ⟨l, ls, hlangs⟩ := entityInit_langs_of_ok device_info subentry e h
  have he := entityInit_eq device_info subentry l ls hlangs
  rw [h] at he
  injection he with he
  subst he
  refine ⟨?_, ?_, ?_, ?_, fun language => rfl⟩
  · rcases hv : subentry.voices with _ | vs
    · exact Or.inl (by simp [hv])
    · rcases vs with _ | ⟨v, vs⟩
      · exact Or.inl (by simp [hv])
      · refine Or.inr ⟨Voice.mk v v, vs.map (fun voice => Voice.mk voice voice),
          by simp [hv], ?_⟩
        intro w hw
        have hw2 : w ∈ (v :: vs).map (fun voice => Voice.mk voice voice) := hw
        obtain ⟨x, _, rfl⟩ := List.mem_map.mp hw2
        rfl
  · rcases hv : subentry.voices with _ | vs
    · simp [hv]
    · rcases vs with _ | ⟨v, vs⟩ <;> simp [hv]
  · rcases hv : subentry.voices with _ | vs
    · simp [hv]
    · rcases vs with _ | ⟨v, vs⟩ <;> simp [hv]
  · rintro (hv | hv) <;> simp [hv]

/-- Claim C10 witness at a concrete entity constructed with voices
`["a", "b"]`. -/
theorem C10_witness :
    ((⟨"webhook", ["en"], "en", some [ATTR_VOICE],
        some [Voice.mk "a" "a", Voice.mk "b" "b"]⟩ : Entity).voices = none ∨
      ∃ v vs, (⟨"webhook", ["en"], "en", some [ATTR_VOICE],
        some [Voice.mk "a" "a", Voice.mk "b" "b"]⟩ : Entity).voices = some (v :: vs) ∧
        ∀ w ∈ v :: vs, w.voice_id = w.name) ∧
    ((⟨"webhook", ["en"], "en", some [ATTR_VOICE],
        some [Voice.mk "a" "a", Voice.mk "b" "b"]⟩ : Entity).supported_options =
        some [ATTR_VOICE] ↔
      ∃ v vs, (some ["a", "b"] : Option (List String)) = some (v :: vs)) ∧
    async_get_supported_voices
        (⟨"webhook", ["en"], "en", some [ATTR_VOICE],
          some [Voice.mk "a" "a", Voice.mk "b" "b"]⟩ : Entity) "en" =
      (⟨"webhook", ["en"], "en", some [ATTR_VOICE],
        some [Voice.mk "a" "a", Voice.mk "b" "b"]⟩ : Entity).voices := by
  have h := C10_voice_invariant none ⟨some ["en"], some ["a", "b"], "webhook"⟩
    ⟨"webhook", ["en"], "en", some [ATTR_VOICE],
      some [Voice.mk "a" "a", Voice.mk "b" "b"]⟩ rfl
  exact ⟨h.1, h.2.1, h.2.2.2.2 "en"⟩
